import Mathlib

/-!
# RundownMacroWidget

A shallow embedding of `src/Widgets/Rundown/TriCaster/RundownMacroWidget.cpp`.

The widget is a record of the member variables the file reads and writes, the
properties of the Qt child widgets it touches, the set of signal connections it
holds to TriCaster devices, and a ghost trace of the calls it issues to
collaborators (timers, the activity animation, device commands).  Collaborator
classes that are declared elsewhere (the device managers, the GPI manager, the
constants of `Global.h`, the form produced by `setupUi`) are gathered in `Env`
and are parameters of every operation.
-/

namespace CasparClient

/-- Identity of a `TriCasterDevice` object, as held by a `QSharedPointer` or a reference. -/
abbrev DevicePtr := Nat

/-- The enumerators of `Playout::PlayoutType::Type`. -/
inductive PlayoutType where
  | Stop | Play | Pause | Load | Next | Update | Invoke | Clear | ClearVideolayer | ClearChannel
deriving DecidableEq, Repr

/-- The part of `LibraryModel` this file reads and writes. -/
structure LibraryModel where
  label : String
  deviceName : String
deriving DecidableEq, Repr

/-- The fields of `MacroCommand` (with those inherited from `AbstractCommand`) this file uses. -/
structure MacroCommand where
  delay : Int
  allowGpi : Bool
  allowRemoteTriggering : Bool
  remoteTriggerId : String
  name : String
deriving DecidableEq, Repr

/-- A row of the TriCaster device table. -/
structure TriCasterDeviceModel where
  name : String
  address : String
deriving DecidableEq, Repr

/-- The three queries of `TriCasterDeviceManager` the widget makes. -/
structure TriCasterDeviceManager where
  getDeviceModels : List TriCasterDeviceModel
  getDeviceByName : String → Option DevicePtr
  getDeviceModelByAddress : String → TriCasterDeviceModel

/-- Constants of `Global.h` referenced by the widget. -/
structure Globals where
  DEFAULT_GROUP_COLOR : String
  DEFAULT_TRICASTER_COLOR : String
  COMPACT_ICON_WIDTH : Int
  COMPACT_ICON_HEIGHT : Int
  DEFAULT_ICON_WIDTH : Int
  DEFAULT_ICON_HEIGHT : Int
  DEFAULT_PLAY_CONTROL_FILTER : String
  DEFAULT_UPDATE_CONTROL_FILTER : String

/-- Properties of the child widgets of the form that the file sets or reads. -/
structure Ui where
  styleSheet : String
  labelActiveColorStyleSheet : String
  labelGroupColorVisible : Bool
  labelGroupColorStyleSheet : String
  labelColorStyleSheet : String
  labelLabelText : String
  labelDelayText : String
  labelDeviceText : String
  labelDeviceStyleSheet : String
  labelRemoteTriggerIdText : String
  labelIconSize : Int × Int
  labelGpiConnectedSize : Int × Int
  labelGpiConnectedVisible : Bool
  labelGpiConnectedPixmap : String
  labelDisconnectedSize : Int × Int
  labelDisconnectedVisible : Bool
deriving DecidableEq, Repr

/-- Calls the widget issues to collaborators, recorded in program order. -/
inductive Effect where
  | executeCommandEntered (type : PlayoutType)
  | executePlayEntered
  | singleShotExecutePlay (msec : Int)
  | playMacro (device : DevicePtr) (name : String)
  | animationStart (loops : Nat)
  | animationStop
deriving DecidableEq, Repr

/-- The world outside the widget at the moment an operation runs. -/
structure Env where
  tricaster : TriCasterDeviceManager
  isConnected : DevicePtr → Bool
  getAddress : DevicePtr → String
  gpiConnected : Bool
  hasCasparDevice : String → Bool
  consts : Globals
  defaultCommand : MacroCommand
  setupUi : Ui

/-- Events seen by `eventFilter`, by `event->type()` and payload. -/
inductive Event where
  | Preview
  | LabelChanged (label : String)
  | DeviceChanged (deviceName : String)
  | Other (type : Nat)
deriving DecidableEq, Repr

/-- Member variables of `RundownMacroWidget`, its form, its device connections
(one entry per `QObject::connect` of a device's `connectionStateChanged` to
`deviceConnectionStateChanged`), its two OSC subscription filters, and the
trace of collaborator calls. -/
structure RundownMacroWidget where
  active : Bool
  inGroup : Bool
  compactView : Bool
  color : String
  model : LibraryModel
  command : MacroCommand
  ui : Ui
  connections : List DevicePtr
  playControlSubscription : Option String
  updateControlSubscription : Option String
  effects : List Effect
deriving DecidableEq, Repr

/-- The return value of the base class `QObject::eventFilter`. -/
def QObject.eventFilter : Bool := false

/-- Elements written to a `QXmlStreamWriter` by `writeTextElement`, in order. -/
abbrev XmlWriter := List (String × String)

/-- The children of a `wptree` node as (key, data) pairs, in document order. -/
abbrev PTree := List (String × String)

/-- Number of children with the given key: `pt.count(key)`. -/
def PTree.count (pt : PTree) (key : String) : Nat :=
  (pt.filter (fun p => p.1 = key)).length

/-- Data of the first child with the given key: `pt.get<std::wstring>(key)`,
which throws when there is none. -/
def PTree.get (pt : PTree) (key : String) : Option String :=
  (pt.find? (fun p => p.1 = key)).map (fun p => p.2)

namespace RundownMacroWidget

/-- Append one collaborator call to the trace. -/
def emit (w : RundownMacroWidget) (e : Effect) : RundownMacroWidget :=
  { w with effects := w.effects ++ [e] }

/-- The call `QObject::connect(device, connectionStateChanged, this, deviceConnectionStateChanged)`:
Qt adds one connection per call. -/
def connectDevice (w : RundownMacroWidget) (d : DevicePtr) : RundownMacroWidget :=
  { w with connections := w.connections ++ [d] }

/-- The call `QObject::disconnect(device, connectionStateChanged, this, deviceConnectionStateChanged)`:
every matching connection is removed. -/
def disconnectDevice (w : RundownMacroWidget) (d : DevicePtr) : RundownMacroWidget :=
  { w with connections := w.connections.filter (fun c => c ≠ d) }

def setColor (w : RundownMacroWidget) (color : String) : RundownMacroWidget :=
  { w with
    color := color
    ui := { w.ui with
      styleSheet := "#frameItem, #frameStatus \x7b background-color: rgba(" ++ color ++ "); \x7d" } }

def setActive (w : RundownMacroWidget) (active : Bool) : RundownMacroWidget :=
  let w := { w with active := active }
  let w := w.emit Effect.animationStop
  if w.active then
    { w with ui := { w.ui with labelActiveColorStyleSheet := "background-color: lime;" } }
  else
    { w with ui := { w.ui with labelActiveColorStyleSheet := "" } }

def setInGroup (w : RundownMacroWidget) (inGroup : Bool) : RundownMacroWidget :=
  let w := { w with inGroup := inGroup }
  { w with ui := { w.ui with labelGroupColorVisible := w.inGroup } }

def setCompactView (env : Env) (w : RundownMacroWidget) (compactView : Bool) :
    RundownMacroWidget :=
  let w :=
    if compactView then
      { w with ui := { w.ui with
          labelIconSize := (env.consts.COMPACT_ICON_WIDTH, env.consts.COMPACT_ICON_HEIGHT)
          labelGpiConnectedSize := (env.consts.COMPACT_ICON_WIDTH, env.consts.COMPACT_ICON_HEIGHT)
          labelDisconnectedSize := (env.consts.COMPACT_ICON_WIDTH, env.consts.COMPACT_ICON_HEIGHT) } }
    else
      { w with ui := { w.ui with
          labelIconSize := (env.consts.DEFAULT_ICON_WIDTH, env.consts.DEFAULT_ICON_HEIGHT)
          labelGpiConnectedSize := (env.consts.DEFAULT_ICON_WIDTH, env.consts.DEFAULT_ICON_HEIGHT)
          labelDisconnectedSize := (env.consts.DEFAULT_ICON_WIDTH, env.consts.DEFAULT_ICON_HEIGHT) } }
  { w with compactView := compactView }

def checkEmptyDevice (w : RundownMacroWidget) : RundownMacroWidget :=
  if w.ui.labelDeviceText = "Device: " then
    { w with ui := { w.ui with labelDeviceStyleSheet := "color: firebrick;" } }
  else
    { w with ui := { w.ui with labelDeviceStyleSheet := "" } }

def checkGpiConnection (env : Env) (w : RundownMacroWidget) : RundownMacroWidget :=
  let w := { w with ui := { w.ui with labelGpiConnectedVisible := w.command.allowGpi } }
  if env.gpiConnected then
    { w with ui := { w.ui with labelGpiConnectedPixmap := ":/Graphics/Images/GpiConnected.png" } }
  else
    { w with ui := { w.ui with labelGpiConnectedPixmap := ":/Graphics/Images/GpiDisconnected.png" } }

def checkDeviceConnection (env : Env) (w : RundownMacroWidget) : RundownMacroWidget :=
  match env.tricaster.getDeviceByName w.model.deviceName with
  | none => { w with ui := { w.ui with labelDisconnectedVisible := true } }
  | some device => { w with ui := { w.ui with labelDisconnectedVisible := !env.isConnected device } }

def configureOscSubscriptions (env : Env) (w : RundownMacroWidget) : RundownMacroWidget :=
  if env.hasCasparDevice w.model.deviceName = false then
    w
  else
    let playControlFilter :=
      env.consts.DEFAULT_PLAY_CONTROL_FILTER.replace "#UID#" w.command.remoteTriggerId
    let w := { w with playControlSubscription := some playControlFilter }
    let updateControlFilter :=
      env.consts.DEFAULT_UPDATE_CONTROL_FILTER.replace "#UID#" w.command.remoteTriggerId
    { w with updateControlSubscription := some updateControlFilter }

def executePlay (env : Env) (w : RundownMacroWidget) : RundownMacroWidget :=
  env.tricaster.getDeviceModels.foldl
    (fun w model =>
      match env.tricaster.getDeviceByName model.name with
      | some device =>
        if env.isConnected device then w.emit (Effect.playMacro device w.command.name) else w
      | none => w)
    (w.emit Effect.executePlayEntered)

def executeCommand (w : RundownMacroWidget) (type : PlayoutType) : Bool × RundownMacroWidget :=
  let w := w.emit (Effect.executeCommandEntered type)
  let w :=
    if type = PlayoutType.Play ∨ type = PlayoutType.Update then
      if w.model.deviceName ≠ "" then
        w.emit (Effect.singleShotExecutePlay w.command.delay)
      else w
    else w
  let w := if w.active then w.emit (Effect.animationStart 1) else w
  (true, w)

def delayChanged (w : RundownMacroWidget) (delay : Int) : RundownMacroWidget :=
  { w with ui := { w.ui with labelDelayText := "Delay: " ++ toString delay } }

def allowGpiChanged (env : Env) (w : RundownMacroWidget) (_allowGpi : Bool) :
    RundownMacroWidget :=
  checkGpiConnection env w

def gpiConnectionStateChanged (env : Env) (w : RundownMacroWidget) (_connected : Bool) :
    RundownMacroWidget :=
  checkGpiConnection env w

def remoteTriggerIdChanged (env : Env) (w : RundownMacroWidget) (remoteTriggerId : String) :
    RundownMacroWidget :=
  let w := configureOscSubscriptions env w
  { w with ui := { w.ui with labelRemoteTriggerIdText := "UID: " ++ remoteTriggerId } }

def deviceConnectionStateChanged (env : Env) (w : RundownMacroWidget) (_device : DevicePtr) :
    RundownMacroWidget :=
  checkDeviceConnection env w

def deviceAdded (env : Env) (w : RundownMacroWidget) (device : DevicePtr) :
    RundownMacroWidget :=
  let w :=
    if (env.tricaster.getDeviceModelByAddress (env.getAddress device)).name = w.model.deviceName
    then w.connectDevice device
    else w
  checkDeviceConnection env w

def playControlSubscriptionReceived (w : RundownMacroWidget) (_predicate : String)
    (_arguments : List String) : RundownMacroWidget :=
  if w.command.allowRemoteTriggering then (w.executeCommand PlayoutType.Play).2 else w

def updateControlSubscriptionReceived (w : RundownMacroWidget) (_predicate : String)
    (_arguments : List String) : RundownMacroWidget :=
  if w.command.allowRemoteTriggering then (w.executeCommand PlayoutType.Update).2 else w

/-- The constructor. -/
def new (env : Env) (model : LibraryModel) (color : String) (active inGroup compactView : Bool) :
    RundownMacroWidget :=
  let w : RundownMacroWidget :=
    { active := active, inGroup := inGroup, compactView := compactView, color := color,
      model := model, command := env.defaultCommand, ui := env.setupUi, connections := [],
      playControlSubscription := none, updateControlSubscription := none, effects := [] }
  let w := w.setColor color
  let w := w.setActive active
  let w := w.setCompactView env compactView
  let w := { w with ui := { w.ui with
    labelGroupColorVisible := w.inGroup
    labelGroupColorStyleSheet := "background-color: " ++ env.consts.DEFAULT_GROUP_COLOR ++ ";"
    labelColorStyleSheet := "background-color: " ++ env.consts.DEFAULT_TRICASTER_COLOR ++ ";" } }
  let w := { w with ui := { w.ui with
    labelLabelText := w.model.label
    labelDelayText := "Delay: " ++ toString w.command.delay
    labelDeviceText := "Server: " ++ w.model.deviceName } }
  let w :=
    match env.tricaster.getDeviceByName w.model.deviceName with
    | some device => w.connectDevice device
    | none => w
  let w := w.checkEmptyDevice
  let w := w.checkGpiConnection env
  let w := w.checkDeviceConnection env
  w.configureOscSubscriptions env

def eventFilter (env : Env) (w : RundownMacroWidget) (event : Event) :
    Bool × RundownMacroWidget :=
  match event with
  | Event.Preview =>
    if w.active = false then (false, w)
    else (true, w.executePlay env)
  | Event.LabelChanged label =>
    if w.active = false then (false, w)
    else
      let w := { w with model := { w.model with label := label } }
      let w := { w with ui := { w.ui with labelLabelText := w.model.label } }
      (true, w)
  | Event.DeviceChanged deviceName =>
    if w.active = false then (false, w)
    else
      let w :=
        if deviceName ≠ "" ∧ deviceName ≠ w.model.deviceName then
          let w :=
            match env.tricaster.getDeviceByName w.model.deviceName with
            | some oldDevice => w.disconnectDevice oldDevice
            | none => w
          let w := { w with model := { w.model with deviceName := deviceName } }
          let w := { w with ui := { w.ui with labelDeviceText := "Server: " ++ w.model.deviceName } }
          match env.tricaster.getDeviceByName w.model.deviceName with
          | some newDevice => w.connectDevice newDevice
          | none => w
        else w
      let w := w.checkEmptyDevice
      let w := w.checkDeviceConnection env
      (QObject.eventFilter, w)
  | Event.Other _ => (QObject.eventFilter, w)

/-- Modelled from the spec: `MacroCommand` is declared outside the excerpt ("wiring visual
elements to command objects", "bind signals/slots"); `setDelay` on the widget's own command is
taken to store the value and emit `delayChanged(int)`, which runs the slot the constructor
connected. -/
def commandSetDelay (w : RundownMacroWidget) (delay : Int) : RundownMacroWidget :=
  let w := { w with command := { w.command with delay := delay } }
  w.delayChanged delay

/-- Modelled from the spec: `MacroCommand::setAllowGpi` (declared outside the excerpt) is taken
to store the flag and emit `allowGpiChanged(bool)`, which runs the connected slot. -/
def commandSetAllowGpi (env : Env) (w : RundownMacroWidget) (allowGpi : Bool) :
    RundownMacroWidget :=
  let w := { w with command := { w.command with allowGpi := allowGpi } }
  w.allowGpiChanged env allowGpi

/-- Modelled from the spec: `MacroCommand::setAllowRemoteTriggering` (declared outside the
excerpt) is taken to store the flag; no slot of the widget is connected to it. -/
def commandSetAllowRemoteTriggering (w : RundownMacroWidget) (allow : Bool) :
    RundownMacroWidget :=
  { w with command := { w.command with allowRemoteTriggering := allow } }

/-- Modelled from the spec: `MacroCommand::setRemoteTriggerId` (declared outside the excerpt) is
taken to store the id and emit `remoteTriggerIdChanged`, which runs the connected slot. -/
def commandSetRemoteTriggerId (env : Env) (w : RundownMacroWidget) (remoteTriggerId : String) :
    RundownMacroWidget :=
  let w := { w with command := { w.command with remoteTriggerId := remoteTriggerId } }
  w.remoteTriggerIdChanged env remoteTriggerId

/-- Modelled from the spec: `MacroCommand::setName` (declared outside the excerpt) is taken to
store the name; no slot of the widget is connected to it. -/
def commandSetName (w : RundownMacroWidget) (name : String) : RundownMacroWidget :=
  { w with command := { w.command with name := name } }

/-- The widget returned by `clone()`, paired with the receiver after the call. -/
def clone (env : Env) (w : RundownMacroWidget) : RundownMacroWidget × RundownMacroWidget :=
  let widget := new env w.model w.color w.active w.inGroup w.compactView
  let widget := widget.commandSetDelay w.command.delay
  let widget := widget.commandSetAllowGpi env w.command.allowGpi
  let widget := widget.commandSetAllowRemoteTriggering w.command.allowRemoteTriggering
  let widget := widget.commandSetRemoteTriggerId env w.command.remoteTriggerId
  let widget := widget.commandSetName w.command.name
  (widget, w)

def readProperties (w : RundownMacroWidget) (pt : PTree) : Option RundownMacroWidget :=
  if pt.count "color" > 0 then (pt.get "color").map (fun c => w.setColor c) else some w

def writeProperties (w : RundownMacroWidget) (writer : XmlWriter) :
    XmlWriter × RundownMacroWidget :=
  (writer ++ [("color", w.color)], w)

def isGroup (_w : RundownMacroWidget) : Bool := false

def isInGroup (w : RundownMacroWidget) : Bool := w.inGroup

def getCommand (w : RundownMacroWidget) : MacroCommand := w.command

def getLibraryModel (w : RundownMacroWidget) : LibraryModel := w.model

end RundownMacroWidget

/-- The delays of the single-shot timers armed for `executePlay` in a trace, in order. -/
def scheduledPlays : List Effect → List Int
  | [] => []
  | Effect.singleShotExecutePlay msec :: rest => msec :: scheduledPlays rest
  | _ :: rest => scheduledPlays rest

/-! ## Traces of the widget among a changing set of devices -/

/-- What can happen to a widget after construction, as far as its device connections
are concerned: an event reaches `eventFilter`, the device manager announces a device
through `deviceAdded`, or the rundown selects or deselects the item. -/
inductive Action where
  | event (e : Event)
  | deviceAdded (device : DevicePtr)
  | setActive (active : Bool)
deriving DecidableEq, Repr

/-- One action, run in the world `env` of that moment. -/
def step (env : Env) (w : RundownMacroWidget) : Action → RundownMacroWidget
  | Action.event e => (w.eventFilter env e).2
  | Action.deviceAdded device => w.deviceAdded env device
  | Action.setActive active => w.setActive active

/-- Run a sequence of actions, each in its own world; returns the last world and the widget. -/
def run (env : Env) (w : RundownMacroWidget) : List (Env × Action) → Env × RundownMacroWidget
  | [] => (env, w)
  | (env1, a) :: rest => run env1 (step env1 w a) rest

/-- The name the manager reports for a device object, computed the way `deviceAdded`
computes it: through the device model found by the device's address. -/
def Env.deviceNameOf (env : Env) (device : DevicePtr) : String :=
  (env.tricaster.getDeviceModelByAddress (env.getAddress device)).name

/-- Lookup by name returns a device of that name, so a device has one name. -/
def Env.Consistent (env : Env) : Prop :=
  ∀ n d, env.tricaster.getDeviceByName n = some d → env.deviceNameOf d = n

/-- An announced device is the one the manager returns for its name. -/
def Env.Registered (env : Env) (device : DevicePtr) : Prop :=
  env.tricaster.getDeviceByName (env.deviceNameOf device) = some device

/-- The name-to-device mapping does not change for existing devices. -/
def Env.Preserves (env env1 : Env) : Prop :=
  ∀ n d, env.tricaster.getDeviceByName n = some d → env1.tricaster.getDeviceByName n = some d

/-- The assumption on the device manager along a trace that starts in world `env`. -/
def ManagerStable : Env → List (Env × Action) → Prop
  | _, [] => True
  | env, (env1, a) :: rest =>
    env.Preserves env1 ∧ env1.Consistent ∧
    (match a with
      | Action.deviceAdded device => env1.Registered device
      | _ => True) ∧
    ManagerStable env1 rest

/-- The name-to-device mapping stays as it is for existing devices at every step of a
trace that starts in world `env`; nothing is asked of the lookup by address. -/
def MappingStable : Env → List (Env × Action) → Prop
  | _, [] => True
  | env, (env1, _) :: rest => env.Preserves env1 ∧ MappingStable env1 rest

/-! ## A concrete studio used to exercise the definitions -/

def studioGlobals : Globals :=
  { DEFAULT_GROUP_COLOR := "SteelBlue", DEFAULT_TRICASTER_COLOR := "Sienna",
    COMPACT_ICON_WIDTH := 16, COMPACT_ICON_HEIGHT := 16,
    DEFAULT_ICON_WIDTH := 32, DEFAULT_ICON_HEIGHT := 32,
    DEFAULT_PLAY_CONTROL_FILTER := "/control/#UID#/play",
    DEFAULT_UPDATE_CONTROL_FILTER := "/control/#UID#/update" }

def blankUi : Ui :=
  { styleSheet := "", labelActiveColorStyleSheet := "", labelGroupColorVisible := true,
    labelGroupColorStyleSheet := "", labelColorStyleSheet := "", labelLabelText := "",
    labelDelayText := "", labelDeviceText := "", labelDeviceStyleSheet := "",
    labelRemoteTriggerIdText := "", labelIconSize := (0, 0), labelGpiConnectedSize := (0, 0),
    labelGpiConnectedVisible := true, labelGpiConnectedPixmap := "",
    labelDisconnectedSize := (0, 0), labelDisconnectedVisible := true }

def blankCommand : MacroCommand :=
  { delay := 0, allowGpi := false, allowRemoteTriggering := false, remoteTriggerId := "",
    name := "" }

/-- Two TriCaster devices: "Main" (object 1) and "Backup" (object 2). -/
def studioManager : TriCasterDeviceManager :=
  { getDeviceModels :=
      [{ name := "Main", address := "10.0.0.1" }, { name := "Backup", address := "10.0.0.2" }]
    getDeviceByName := fun n =>
      if n = "Main" then some 1 else if n = "Backup" then some 2 else none
    getDeviceModelByAddress := fun a =>
      if a = "10.0.0.2" then { name := "Backup", address := "10.0.0.2" }
      else { name := "Main", address := "10.0.0.1" } }

/-- Both devices of `studioManager` are connected. -/
def studioEnv : Env :=
  { tricaster := studioManager
    isConnected := fun _ => true
    getAddress := fun d => if d = 2 then "10.0.0.2" else "10.0.0.1"
    gpiConnected := false
    hasCasparDevice := fun _ => false
    consts := studioGlobals
    defaultCommand := blankCommand
    setupUi := blankUi }

/-- A rundown item for the device "Main", selected in the rundown. -/
def introItem : RundownMacroWidget :=
  { active := true, inGroup := false, compactView := false, color := "Transparent",
    model := { label := "Intro", deviceName := "Main" },
    command := { delay := 40, allowGpi := false, allowRemoteTriggering := true,
                 remoteTriggerId := "7", name := "FadeToBlack" },
    ui := { blankUi with labelLabelText := "Intro", labelDeviceText := "Server: Main" },
    connections := [1], playControlSubscription := none, updateControlSubscription := none,
    effects := [] }

/-- The same item when it is not the selected one and may not be triggered remotely. -/
def idleItem : RundownMacroWidget :=
  { introItem with active := false,
                   command := { introItem.command with allowRemoteTriggering := false } }

/-- The studio before the device "Backup" was configured. -/
def rehearsalEnv : Env :=
  { studioEnv with
    tricaster :=
      { getDeviceModels := [{ name := "Main", address := "10.0.0.1" }]
        getDeviceByName := fun n => if n = "Main" then some 1 else none
        getDeviceModelByAddress := fun _ => { name := "Main", address := "10.0.0.1" } } }

/-- An evening in the studio: the item is moved to "Backup" before that device exists,
the device is then configured and announced, the item is deselected and a late
DeviceChanged event for "Main" arrives. -/
def studioEvening : List (Env × Action) :=
  [(rehearsalEnv, Action.event (Event.DeviceChanged "Backup")),
   (studioEnv, Action.deviceAdded 2),
   (studioEnv, Action.setActive false),
   (studioEnv, Action.event (Event.DeviceChanged "Main"))]


/-- A studio in which the rows "Main" (object 1) and "Spare" (object 3) were entered
with the same address, next to "Backup" (object 2); the lookup by address finds the
first row with that address. -/
def sharedAddressEnv : Env :=
  { studioEnv with
    tricaster :=
      { getDeviceModels :=
          [{ name := "Main", address := "10.0.0.1" }, { name := "Spare", address := "10.0.0.1" },
           { name := "Backup", address := "10.0.0.2" }]
        getDeviceByName := fun n =>
          if n = "Main" then some 1 else if n = "Spare" then some 3
          else if n = "Backup" then some 2 else none
        getDeviceModelByAddress := fun a =>
          if a = "10.0.0.2" then { name := "Backup", address := "10.0.0.2" }
          else { name := "Main", address := "10.0.0.1" } }
    getAddress := fun d => if d = 2 then "10.0.0.2" else "10.0.0.1" }

/-- The manager announces "Spare", then the item is moved from "Main" to "Backup". -/
def spareAnnounced : List (Env × Action) :=
  [(sharedAddressEnv, Action.deviceAdded 3),
   (sharedAddressEnv, Action.event (Event.DeviceChanged "Backup"))]

/-- The same two steps in `studioEnv`, where object 3 has the address of "Main". -/
def strayAnnounced : List (Env × Action) :=
  [(studioEnv, Action.deviceAdded 3),
   (studioEnv, Action.event (Event.DeviceChanged "Backup"))]

/-! ## Theorems -/

open RundownMacroWidget

theorem scheduledPlays_append (xs ys : List Effect) :
    scheduledPlays (xs ++ ys) = scheduledPlays xs ++ scheduledPlays ys := by
  induction xs with
  | nil => rfl
  | cons x xs ih => cases x <;> simp [scheduledPlays, ih]

theorem server_text_ne_device (n : String) : "Server: " ++ n ≠ "Device: " := by
  intro h
  have h2 := congrArg String.data h
  simp [String.data_append] at h2

/-- C1: on a widget that is not active, `eventFilter` returns false for a Preview,
LabelChanged or DeviceChanged event, issues no call at all (so `executePlay` is not
entered), and leaves the model's label and device name and the texts of `labelLabel`
and `labelDevice` as they were; indeed the whole widget is unchanged. -/
theorem eventFilter_inactive_ignored (env : Env) (w : RundownMacroWidget) (event : Event)
    (hactive : w.active = false)
    (hevent : event = Event.Preview ∨ (∃ l, event = Event.LabelChanged l) ∨
      ∃ d, event = Event.DeviceChanged d) :
    (w.eventFilter env event).1 = false ∧
    (w.eventFilter env event).2.effects = w.effects ∧
    Effect.executePlayEntered ∉ (w.eventFilter env event).2.effects.drop w.effects.length ∧
    (w.eventFilter env event).2.model.label = w.model.label ∧
    (w.eventFilter env event).2.model.deviceName = w.model.deviceName ∧
    (w.eventFilter env event).2.ui.labelLabelText = w.ui.labelLabelText ∧
    (w.eventFilter env event).2.ui.labelDeviceText = w.ui.labelDeviceText ∧
    (w.eventFilter env event).2 = w := by
  rcases hevent with h | ⟨l, h⟩ | ⟨d, h⟩ <;> subst h <;> simp [eventFilter, hactive]

theorem C1_witness :
    idleItem.active = false ∧
    (Event.DeviceChanged "Backup" = Event.Preview ∨
      (∃ l, Event.DeviceChanged "Backup" = Event.LabelChanged l) ∨
      ∃ d, Event.DeviceChanged "Backup" = Event.DeviceChanged d) ∧
    (idleItem.eventFilter studioEnv (Event.DeviceChanged "Backup")).1 = false ∧
    (idleItem.eventFilter studioEnv (Event.DeviceChanged "Backup")).2 = idleItem :=
  have h := eventFilter_inactive_ignored studioEnv idleItem (Event.DeviceChanged "Backup") rfl
    (Or.inr (Or.inr ⟨"Backup", rfl⟩))
  ⟨rfl, Or.inr (Or.inr ⟨"Backup", rfl⟩), h.1, h.2.2.2.2.2.2.2⟩

/-- C2: on an active widget a LabelChanged event carrying `L` sets the model's label
and the text of `labelLabel` to `L`, leaves the model's device name unchanged, and
`eventFilter` returns true. -/
theorem eventFilter_labelChanged_active (env : Env) (w : RundownMacroWidget) (L : String)
    (hactive : w.active = true) :
    (w.eventFilter env (Event.LabelChanged L)).2.model.label = L ∧
    (w.eventFilter env (Event.LabelChanged L)).2.ui.labelLabelText = L ∧
    (w.eventFilter env (Event.LabelChanged L)).2.model.deviceName = w.model.deviceName ∧
    (w.eventFilter env (Event.LabelChanged L)).1 = true := by
  simp [eventFilter, hactive]

theorem C2_witness :
    introItem.active = true ∧
    (introItem.eventFilter studioEnv (Event.LabelChanged "Outro")).2.model.label = "Outro" ∧
    (introItem.eventFilter studioEnv (Event.LabelChanged "Outro")).1 = true :=
  have h := eventFilter_labelChanged_active studioEnv introItem "Outro" rfl
  ⟨rfl, h.1, h.2.2.2⟩

theorem checkEmptyDevice_eq (w : RundownMacroWidget) :
    w.checkEmptyDevice = { w with ui := { w.ui with
      labelDeviceStyleSheet :=
        if w.ui.labelDeviceText = "Device: " then "color: firebrick;" else "" } } := by
  unfold checkEmptyDevice
  split <;> rfl

theorem checkDeviceConnection_eq (env : Env) (w : RundownMacroWidget) :
    w.checkDeviceConnection env = { w with ui := { w.ui with
      labelDisconnectedVisible :=
        match env.tricaster.getDeviceByName w.model.deviceName with
        | none => true
        | some device => !env.isConnected device } } := by
  unfold checkDeviceConnection
  split <;> rename_i h <;> simp [h]

/-- The widget after the renaming branch of the DeviceChanged handler, before the two checks. -/
theorem eventFilter_deviceChanged_eq (env : Env) (w : RundownMacroWidget) (D : String)
    (hactive : w.active = true) :
    (w.eventFilter env (Event.DeviceChanged D)).2 =
      (RundownMacroWidget.checkDeviceConnection env (RundownMacroWidget.checkEmptyDevice
        (if D ≠ "" ∧ D ≠ w.model.deviceName then
          { w with
            model := { w.model with deviceName := D }
            ui := { w.ui with labelDeviceText := "Server: " ++ D }
            connections :=
              (match env.tricaster.getDeviceByName w.model.deviceName with
                | some oldDevice => w.connections.filter (fun c => c ≠ oldDevice)
                | none => w.connections) ++
              (match env.tricaster.getDeviceByName D with
                | some newDevice => [newDevice]
                | none => []) }
        else w))) := by
  by_cases h : D ≠ "" ∧ D ≠ w.model.deviceName
  · obtain ⟨h1, h2⟩ := h
    cases hold : env.tricaster.getDeviceByName w.model.deviceName <;>
      cases hnew : env.tricaster.getDeviceByName D <;>
      simp [eventFilter, hactive, h1, h2, hold, hnew, connectDevice, disconnectDevice]
  · have h3 : ¬(¬D = "" ∧ ¬D = w.model.deviceName) := h
    simp [eventFilter, hactive, h3]

/-- C3: on an active widget a DeviceChanged event carrying `D` makes the model's device
name `D` when `D` is non-empty and leaves it as it was when `D` is empty; whenever the
name changed, the text of `labelDevice` is "Server: " followed by `D`; the model's
label is unchanged in both cases. -/
theorem eventFilter_deviceChanged_active (env : Env) (w : RundownMacroWidget) (D : String)
    (hactive : w.active = true) :
    (w.eventFilter env (Event.DeviceChanged D)).2.model.deviceName =
      (if D = "" then w.model.deviceName else D) ∧
    ((w.eventFilter env (Event.DeviceChanged D)).2.model.deviceName ≠ w.model.deviceName →
      (w.eventFilter env (Event.DeviceChanged D)).2.ui.labelDeviceText = "Server: " ++ D) ∧
    (w.eventFilter env (Event.DeviceChanged D)).2.model.label = w.model.label := by
  rw [eventFilter_deviceChanged_eq env w D hactive, checkDeviceConnection_eq, checkEmptyDevice_eq]
  by_cases hD : D = ""
  · simp [hD]
  · by_cases hsame : D = w.model.deviceName
    · simp [hD, hsame]
    · simp [hD, hsame]

theorem C3_witness :
    introItem.active = true ∧
    (introItem.eventFilter studioEnv (Event.DeviceChanged "Backup")).2.model.deviceName =
      (if "Backup" = "" then introItem.model.deviceName else "Backup") ∧
    (introItem.eventFilter studioEnv (Event.DeviceChanged "Backup")).2.model.label =
      introItem.model.label :=
  have h := eventFilter_deviceChanged_active studioEnv introItem "Backup" rfl
  ⟨rfl, h.1, h.2.2⟩

theorem setActive_eq (w : RundownMacroWidget) (active : Bool) :
    w.setActive active = { w with
      active := active
      effects := w.effects ++ [Effect.animationStop]
      ui := { w.ui with
        labelActiveColorStyleSheet := if active = true then "background-color: lime;" else "" } } := by
  cases active <;> rfl

theorem setCompactView_eq (env : Env) (w : RundownMacroWidget) (compactView : Bool) :
    w.setCompactView env compactView = { w with
      compactView := compactView
      ui := { w.ui with
        labelIconSize :=
          if compactView = true then (env.consts.COMPACT_ICON_WIDTH, env.consts.COMPACT_ICON_HEIGHT)
          else (env.consts.DEFAULT_ICON_WIDTH, env.consts.DEFAULT_ICON_HEIGHT)
        labelGpiConnectedSize :=
          if compactView = true then (env.consts.COMPACT_ICON_WIDTH, env.consts.COMPACT_ICON_HEIGHT)
          else (env.consts.DEFAULT_ICON_WIDTH, env.consts.DEFAULT_ICON_HEIGHT)
        labelDisconnectedSize :=
          if compactView = true then (env.consts.COMPACT_ICON_WIDTH, env.consts.COMPACT_ICON_HEIGHT)
          else (env.consts.DEFAULT_ICON_WIDTH, env.consts.DEFAULT_ICON_HEIGHT) } } := by
  cases compactView <;> rfl

theorem checkGpiConnection_eq (env : Env) (w : RundownMacroWidget) :
    w.checkGpiConnection env = { w with ui := { w.ui with
      labelGpiConnectedVisible := w.command.allowGpi
      labelGpiConnectedPixmap :=
        if env.gpiConnected = true then ":/Graphics/Images/GpiConnected.png"
        else ":/Graphics/Images/GpiDisconnected.png" } } := by
  unfold checkGpiConnection
  cases env.gpiConnected <;> rfl

theorem configureOscSubscriptions_eq (env : Env) (w : RundownMacroWidget) :
    w.configureOscSubscriptions env = { w with
      playControlSubscription :=
        if env.hasCasparDevice w.model.deviceName = false then w.playControlSubscription
        else some (env.consts.DEFAULT_PLAY_CONTROL_FILTER.replace "#UID#" w.command.remoteTriggerId)
      updateControlSubscription :=
        if env.hasCasparDevice w.model.deviceName = false then w.updateControlSubscription
        else some
          (env.consts.DEFAULT_UPDATE_CONTROL_FILTER.replace "#UID#" w.command.remoteTriggerId) } := by
  unfold configureOscSubscriptions
  cases env.hasCasparDevice w.model.deviceName <;> rfl

/-- What the constructor leaves in the fields the claims speak about. -/
theorem new_fields (env : Env) (model : LibraryModel) (color : String)
    (active inGroup compactView : Bool) :
    (RundownMacroWidget.new env model color active inGroup compactView).model = model ∧
    (RundownMacroWidget.new env model color active inGroup compactView).color = color ∧
    (RundownMacroWidget.new env model color active inGroup compactView).active = active ∧
    (RundownMacroWidget.new env model color active inGroup compactView).inGroup = inGroup ∧
    (RundownMacroWidget.new env model color active inGroup compactView).compactView =
      compactView ∧
    (RundownMacroWidget.new env model color active inGroup compactView).command =
      env.defaultCommand ∧
    (RundownMacroWidget.new env model color active inGroup compactView).connections =
      (match env.tricaster.getDeviceByName model.deviceName with
        | some device => [device]
        | none => []) ∧
    (RundownMacroWidget.new env model color active inGroup compactView).ui.labelLabelText =
      model.label ∧
    (RundownMacroWidget.new env model color active inGroup compactView).ui.labelDeviceText =
      "Server: " ++ model.deviceName ∧
    (RundownMacroWidget.new env model color active inGroup compactView).ui.labelDeviceStyleSheet =
      "" := by
  simp only [RundownMacroWidget.new, configureOscSubscriptions_eq, checkDeviceConnection_eq,
    checkGpiConnection_eq, checkEmptyDevice_eq, setCompactView_eq, setActive_eq, setColor]
  cases env.tricaster.getDeviceByName model.deviceName <;>
    simp [connectDevice, server_text_ne_device]

/-- C4: reading back the tree that holds exactly what `writeProperties` of `w` wrote
(the one text element "color" with `w.color`) into any widget `w2` succeeds and leaves
`w2.color` equal to `w.color` and the stylesheet equal to the one `setColor(w.color)`
produces; and `readProperties` on a tree without a "color" element returns the widget
as it was, so its color and stylesheet are unchanged. -/
theorem readProperties_writeProperties (w w2 : RundownMacroWidget) :
    (w.writeProperties []).1 = [("color", w.color)] ∧
    (w.writeProperties []).2 = w ∧
    w2.readProperties (w.writeProperties []).1 = some (w2.setColor w.color) ∧
    (w2.setColor w.color).color = w.color ∧
    (w2.setColor w.color).ui.styleSheet = (w.setColor w.color).ui.styleSheet ∧
    (w2.setColor w.color).ui.styleSheet =
      "#frameItem, #frameStatus \x7b background-color: rgba(" ++ w.color ++ "); \x7d" ∧
    ∀ pt : PTree, (∀ p ∈ pt, p.1 ≠ "color") → w2.readProperties pt = some w2 := by
  refine ⟨rfl, rfl, ?_, rfl, rfl, rfl, ?_⟩
  · simp [readProperties, writeProperties, PTree.count, PTree.get]
  · intro pt hpt
    have hcount : PTree.count pt "color" = 0 := by
      simp only [PTree.count, List.length_eq_zero, List.filter_eq_nil_iff]
      intro p hp
      simpa using hpt p hp
    simp [readProperties, hcount]

/-- C5: `executeCommand` returns true for every playout type and every widget; it arms
the single-shot timer for `executePlay` exactly once, with the command's delay, when
the type is Play or Update and the model's device name is non-empty, and arms none
otherwise; and it leaves the model, the command, color, active, inGroup and
compactView as they were. -/
theorem executeCommand_schedules (w : RundownMacroWidget) (type : PlayoutType) :
    (w.executeCommand type).1 = true ∧
    (∃ added, (w.executeCommand type).2.effects = w.effects ++ added ∧
      scheduledPlays added =
        if (type = PlayoutType.Play ∨ type = PlayoutType.Update) ∧ w.model.deviceName ≠ ""
        then [w.command.delay] else []) ∧
    (w.executeCommand type).2.model = w.model ∧
    (w.executeCommand type).2.command = w.command ∧
    (w.executeCommand type).2.color = w.color ∧
    (w.executeCommand type).2.active = w.active ∧
    (w.executeCommand type).2.inGroup = w.inGroup ∧
    (w.executeCommand type).2.compactView = w.compactView := by
  by_cases ht : type = PlayoutType.Play ∨ type = PlayoutType.Update <;>
    by_cases hd : w.model.deviceName = "" <;>
    cases ha : w.active <;>
    simp [executeCommand, emit, ht, hd, ha, scheduledPlays]

/-- C6: a received OSC subscription message runs `executeCommand` (Play for the play
subscription, Update for the update subscription) exactly when the command allows
remote triggering; when it does not, the widget is returned as it was: no timer is
armed, no animation is started and no field changes. -/
theorem controlSubscriptionReceived_gated (w : RundownMacroWidget) (predicate : String)
    (arguments : List String) :
    (w.playControlSubscriptionReceived predicate arguments =
      if w.command.allowRemoteTriggering = true then (w.executeCommand PlayoutType.Play).2
      else w) ∧
    (w.updateControlSubscriptionReceived predicate arguments =
      if w.command.allowRemoteTriggering = true then (w.executeCommand PlayoutType.Update).2
      else w) ∧
    (Effect.executeCommandEntered PlayoutType.Play ∈
        (w.playControlSubscriptionReceived predicate arguments).effects.drop w.effects.length ↔
      w.command.allowRemoteTriggering = true) ∧
    (Effect.executeCommandEntered PlayoutType.Update ∈
        (w.updateControlSubscriptionReceived predicate arguments).effects.drop w.effects.length ↔
      w.command.allowRemoteTriggering = true) ∧
    (w.command.allowRemoteTriggering = false →
      w.playControlSubscriptionReceived predicate arguments = w ∧
      w.updateControlSubscriptionReceived predicate arguments = w) := by
  cases hallow : w.command.allowRemoteTriggering
  · simp [playControlSubscriptionReceived, updateControlSubscriptionReceived, hallow]
  · by_cases hd : w.model.deviceName = "" <;> cases ha : w.active <;>
      simp [playControlSubscriptionReceived, updateControlSubscriptionReceived, hallow,
        executeCommand, emit, hd, ha]

/-- C10: whenever the text of `labelDevice` is "Server: " followed by a device name
(empty or not), `checkEmptyDevice` sets the stylesheet of `labelDevice` to the empty
string; this is the text the constructor sets, and the text the DeviceChanged handler
sets when it renames, so both leave the stylesheet empty; and `checkEmptyDevice` applies
"color: firebrick;" only when the text is exactly "Device: ". -/
theorem checkEmptyDevice_never_highlights (n : String) :
    (∀ w : RundownMacroWidget, w.ui.labelDeviceText = "Server: " ++ n →
      w.checkEmptyDevice.ui.labelDeviceStyleSheet = "") ∧
    (∀ (env : Env) (label color : String) (active inGroup compactView : Bool),
      (RundownMacroWidget.new env { label := label, deviceName := n } color active inGroup
          compactView).ui.labelDeviceText = "Server: " ++ n ∧
      (RundownMacroWidget.new env { label := label, deviceName := n } color active inGroup
          compactView).ui.labelDeviceStyleSheet = "") ∧
    (∀ (env : Env) (w : RundownMacroWidget), w.active = true → n ≠ "" →
      n ≠ w.model.deviceName →
      (w.eventFilter env (Event.DeviceChanged n)).2.ui.labelDeviceText = "Server: " ++ n ∧
      (w.eventFilter env (Event.DeviceChanged n)).2.ui.labelDeviceStyleSheet = "") ∧
    (∀ w : RundownMacroWidget,
      w.checkEmptyDevice.ui.labelDeviceStyleSheet = "color: firebrick;" ↔
        w.ui.labelDeviceText = "Device: ") := by
  refine ⟨?_, ?_, ?_, ?_⟩
  · intro w hw
    simp [checkEmptyDevice_eq, hw, server_text_ne_device]
  · intro env label color active inGroup compactView
    have h := new_fields env { label := label, deviceName := n } color active inGroup compactView
    exact ⟨h.2.2.2.2.2.2.2.2.1, h.2.2.2.2.2.2.2.2.2⟩
  · intro env w hactive h1 h2
    rw [eventFilter_deviceChanged_eq env w n hactive, checkDeviceConnection_eq,
      checkEmptyDevice_eq]
    simp [h1, h2, server_text_ne_device]
  · intro w
    rw [checkEmptyDevice_eq]
    by_cases h : w.ui.labelDeviceText = "Device: "
    · simp [h]
    · simp [h]

theorem C4_witness :
    (∀ p ∈ ([("label", "Intro")] : PTree), p.1 ≠ "color") ∧
    idleItem.readProperties [("label", "Intro")] = some idleItem ∧
    idleItem.readProperties (introItem.writeProperties []).1 =
      some (idleItem.setColor introItem.color) :=
  have h : ∀ p ∈ ([("label", "Intro")] : PTree), p.1 ≠ "color" := by
    intro p hp
    simp only [List.mem_singleton] at hp
    subst hp
    decide
  ⟨h, (readProperties_writeProperties introItem idleItem).2.2.2.2.2.2 _ h,
    (readProperties_writeProperties introItem idleItem).2.2.1⟩

theorem C6_witness :
    idleItem.command.allowRemoteTriggering = false ∧
    idleItem.playControlSubscriptionReceived "/control/7/play" ["1"] = idleItem ∧
    idleItem.updateControlSubscriptionReceived "/control/7/play" ["1"] = idleItem :=
  ⟨rfl, (controlSubscriptionReceived_gated idleItem "/control/7/play" ["1"]).2.2.2.2 rfl⟩

theorem C10_witness :
    introItem.ui.labelDeviceText = "Server: " ++ "Main" ∧
    introItem.checkEmptyDevice.ui.labelDeviceStyleSheet = "" :=
  ⟨by decide, (checkEmptyDevice_never_highlights "Main").1 introItem (by decide)⟩

/-- The calls `executePlay` issues: after the entry marker, one `playMacro` with the
command's name for every row of the device table whose device exists and is connected,
in table order, whatever the widget's own device name is; no field of the widget changes. -/
theorem executePlay_effects (env : Env) (w : RundownMacroWidget) :
    w.executePlay env = { w with effects :=
      w.effects ++ Effect.executePlayEntered ::
        env.tricaster.getDeviceModels.filterMap (fun model =>
          match env.tricaster.getDeviceByName model.name with
          | some device =>
            if env.isConnected device then some (Effect.playMacro device w.command.name)
            else none
          | none => none) } := by
  unfold executePlay
  have key : ∀ (models : List TriCasterDeviceModel) (v : RundownMacroWidget),
      models.foldl
        (fun w model =>
          match env.tricaster.getDeviceByName model.name with
          | some device =>
            if env.isConnected device then w.emit (Effect.playMacro device w.command.name)
            else w
          | none => w) v =
      { v with effects := v.effects ++ models.filterMap (fun model =>
          match env.tricaster.getDeviceByName model.name with
          | some device =>
            if env.isConnected device then some (Effect.playMacro device v.command.name)
            else none
          | none => none) } := by
    intro models
    induction models with
    | nil => intro v; simp
    | cons m ms ih =>
      intro v
      rw [List.foldl_cons, ih]
      cases hm : env.tricaster.getDeviceByName m.name with
      | none => simp [List.filterMap_cons, hm]
      | some device =>
        cases hc : env.isConnected device <;> simp [List.filterMap_cons, hm, hc, emit]
  rw [key]
  simp [emit]

/-- C7 (what the code does at the failing input): the item is assigned to "Main", and
`executePlay` also plays its macro on device object 2, which the manager knows as
"Backup". -/
theorem executePlay_reaches_unselected_device :
    introItem.model.deviceName = "Main" ∧
    studioEnv.tricaster.getDeviceByName "Backup" = some 2 ∧
    studioEnv.tricaster.getDeviceByName "Main" = some 1 ∧
    (introItem.executePlay studioEnv).effects =
      [Effect.executePlayEntered, Effect.playMacro 1 "FadeToBlack",
        Effect.playMacro 2 "FadeToBlack"] := by
  refine ⟨rfl, by decide, by decide, by decide⟩

/-- C9: the widget returned by `clone()` has the receiver's model (label and device
name), color, active, inGroup and compactView, and its command has the receiver's
delay, allowGpi, allowRemoteTriggering, remoteTriggerId and name; `isGroup()` of the
clone is false; and the receiver is unchanged by the call. -/
theorem clone_copies (env : Env) (w : RundownMacroWidget) :
    (w.clone env).1.model = w.model ∧
    (w.clone env).1.model.label = w.model.label ∧
    (w.clone env).1.model.deviceName = w.model.deviceName ∧
    (w.clone env).1.color = w.color ∧
    (w.clone env).1.active = w.active ∧
    (w.clone env).1.inGroup = w.inGroup ∧
    (w.clone env).1.compactView = w.compactView ∧
    (w.clone env).1.getCommand.delay = w.getCommand.delay ∧
    (w.clone env).1.getCommand.allowGpi = w.getCommand.allowGpi ∧
    (w.clone env).1.getCommand.allowRemoteTriggering = w.getCommand.allowRemoteTriggering ∧
    (w.clone env).1.getCommand.remoteTriggerId = w.getCommand.remoteTriggerId ∧
    (w.clone env).1.getCommand.name = w.getCommand.name ∧
    (w.clone env).1.isGroup = false ∧
    (w.clone env).2 = w := by
  have h := new_fields env w.model w.color w.active w.inGroup w.compactView
  obtain ⟨hmodel, hcolor, hactive, hgroup, hcompact, -⟩ := h
  simp only [clone, commandSetName, commandSetRemoteTriggerId, remoteTriggerIdChanged,
    configureOscSubscriptions_eq, commandSetAllowRemoteTriggering, commandSetAllowGpi,
    allowGpiChanged, checkGpiConnection_eq, commandSetDelay, delayChanged, getCommand, isGroup]
  simp [hmodel, hcolor, hactive, hgroup, hcompact]

/-- The connection invariant: every connected device is the one the manager returns
for the model's current device name. -/
theorem connections_registered (env0 : Env) (model : LibraryModel) (color : String)
    (active inGroup compactView : Bool) :
    ∀ d ∈ (RundownMacroWidget.new env0 model color active inGroup compactView).connections,
      env0.tricaster.getDeviceByName
        (RundownMacroWidget.new env0 model color active inGroup compactView).model.deviceName =
        some d := by
  have h := new_fields env0 model color active inGroup compactView
  rw [h.1, h.2.2.2.2.2.2.1]
  intro d hd
  cases hdev : env0.tricaster.getDeviceByName model.deviceName with
  | none => simp [hdev] at hd
  | some device =>
    simp [hdev] at hd
    rw [hd]

theorem step_preserves_registered (env : Env) (w : RundownMacroWidget) (a : Action)
    (hreg : match a with
      | Action.deviceAdded device => env.Registered device
      | _ => True)
    (hinv : ∀ d ∈ w.connections, env.tricaster.getDeviceByName w.model.deviceName = some d) :
    ∀ d ∈ (step env w a).connections,
      env.tricaster.getDeviceByName (step env w a).model.deviceName = some d := by
  cases a with
  | setActive active =>
    simpa [step, setActive_eq] using hinv
  | deviceAdded device =>
    simp only [step, deviceAdded, checkDeviceConnection_eq]
    by_cases hname :
        (env.tricaster.getDeviceModelByAddress (env.getAddress device)).name = w.model.deviceName
    · simp only [hname, if_true, connectDevice, List.mem_append, List.mem_singleton]
      intro d hd
      rcases hd with hd | hd
      · exact hinv d hd
      · subst hd
        have h2 : env.tricaster.getDeviceByName (env.deviceNameOf d) = some d := hreg
        rw [Env.deviceNameOf, hname] at h2
        exact h2
    · simpa [hname] using hinv
  | event e =>
    cases e with
    | Preview =>
      by_cases hact : w.active = true
      · simpa [step, eventFilter, hact, executePlay_effects] using hinv
      · simpa [step, eventFilter, hact] using hinv
    | LabelChanged label =>
      by_cases hact : w.active = true
      · simpa [step, eventFilter, hact] using hinv
      · simpa [step, eventFilter, hact] using hinv
    | Other type => simpa [step, eventFilter] using hinv
    | DeviceChanged D =>
      by_cases hact : w.active = true
      · simp only [step]
        rw [eventFilter_deviceChanged_eq env w D hact, checkDeviceConnection_eq,
          checkEmptyDevice_eq]
        by_cases hren : D ≠ "" ∧ D ≠ w.model.deviceName
        · rw [if_pos hren]
          intro d hd
          simp only [List.mem_append] at hd
          rcases hd with hd | hd
          · exfalso
            cases hold : env.tricaster.getDeviceByName w.model.deviceName with
            | none =>
              simp only [hold] at hd
              have := hinv d hd
              rw [hold] at this
              exact Option.noConfusion this
            | some oldDevice =>
              simp only [hold, List.mem_filter] at hd
              have := hinv d hd.1
              rw [hold] at this
              have hne := hd.2
              simp at hne
              exact hne (Option.some.inj this).symm
          · cases hnew : env.tricaster.getDeviceByName D with
            | none => simp [hnew] at hd
            | some newDevice =>
              simp [hnew] at hd
              rw [hd]
        · rw [if_neg hren]
          exact hinv
      · have hact2 : w.active = false := by simpa using hact
        simpa [step, eventFilter, hact2] using hinv

theorem run_preserves_registered (tr : List (Env × Action)) :
    ∀ (env : Env) (w : RundownMacroWidget), ManagerStable env tr →
      (∀ d ∈ w.connections, env.tricaster.getDeviceByName w.model.deviceName = some d) →
      ∀ d ∈ (run env w tr).2.connections,
        (run env w tr).1.tricaster.getDeviceByName (run env w tr).2.model.deviceName =
          some d := by
  induction tr with
  | nil => intro env w _ hinv; simpa [run] using hinv
  | cons x rest ih =>
    intro env w hstable hinv
    obtain ⟨env1, a⟩ := x
    obtain ⟨hpres, -, hreg, hrest⟩ := hstable
    simp only [run]
    apply ih env1 (step env1 w a) hrest
    exact step_preserves_registered env1 w a hreg (fun d hd => hpres _ _ (hinv d hd))

theorem run_consistent (tr : List (Env × Action)) :
    ∀ (env : Env) (w : RundownMacroWidget), env.Consistent → ManagerStable env tr →
      (run env w tr).1.Consistent := by
  induction tr with
  | nil => intro env w hc _; simpa [run] using hc
  | cons x rest ih =>
    intro env w _ hstable
    obtain ⟨env1, a⟩ := x
    simp only [run]
    exact ih env1 (step env1 w a) hstable.2.1 hstable.2.2.2

/-- C8 (amended): assume that the mapping from names to devices never changes for a name
that already has a device, that lookup by name returns a device whose address resolves
to that name, and that a device announced by `deviceAdded` is the one registered under
the name its address resolves to.  Then in every
state reached from the constructor by DeviceChanged events (and any other event) on an
active or inactive widget, `deviceAdded` signals and selection changes, every device
whose `connectionStateChanged` is connected to the widget is the device registered
under the model's current device name and has that name; so a device with any other
name, such as the name the item had before a DeviceChanged event renamed it, is not
connected. -/
theorem connections_follow_device_name (env0 : Env) (model : LibraryModel) (color : String)
    (active inGroup compactView : Bool) (tr : List (Env × Action))
    (hconsistent : env0.Consistent) (hstable : ManagerStable env0 tr) :
    (∀ d ∈ (run env0 (RundownMacroWidget.new env0 model color active inGroup compactView)
          tr).2.connections,
      (run env0 (RundownMacroWidget.new env0 model color active inGroup compactView)
          tr).1.tricaster.getDeviceByName
        (run env0 (RundownMacroWidget.new env0 model color active inGroup compactView)
          tr).2.model.deviceName = some d ∧
      (run env0 (RundownMacroWidget.new env0 model color active inGroup compactView)
          tr).1.deviceNameOf d =
        (run env0 (RundownMacroWidget.new env0 model color active inGroup compactView)
          tr).2.model.deviceName) ∧
    (∀ (A : String) (d : DevicePtr),
      A ≠ (run env0 (RundownMacroWidget.new env0 model color active inGroup compactView)
          tr).2.model.deviceName →
      (run env0 (RundownMacroWidget.new env0 model color active inGroup compactView)
          tr).1.tricaster.getDeviceByName A = some d →
      d ∉ (run env0 (RundownMacroWidget.new env0 model color active inGroup compactView)
          tr).2.connections) := by
  have hinv := run_preserves_registered tr env0
    (RundownMacroWidget.new env0 model color active inGroup compactView) hstable
    (connections_registered env0 model color active inGroup compactView)
  have hcons := run_consistent tr env0
    (RundownMacroWidget.new env0 model color active inGroup compactView) hconsistent hstable
  refine ⟨fun d hd => ⟨hinv d hd, hcons _ _ (hinv d hd)⟩, ?_⟩
  intro A d hA hAd hd
  have h1 := hcons _ _ (hinv d hd)
  have h2 := hcons _ _ hAd
  exact hA (h2.symm.trans h1)

theorem rehearsalEnv_consistent : rehearsalEnv.Consistent := by
  intro n d h
  simp only [rehearsalEnv] at h
  split_ifs at h with h1
  subst h1
  rfl

theorem studioEnv_consistent : studioEnv.Consistent := by
  intro n d h
  simp only [studioEnv, studioManager] at h
  split_ifs at h with h1 h2
  · subst h1
    cases h
    decide
  · subst h2
    cases h
    decide

theorem rehearsal_preserved : rehearsalEnv.Preserves studioEnv := by
  intro n d h
  simp only [rehearsalEnv] at h
  split_ifs at h with h1
  subst h1
  cases h
  rfl

theorem backup_registered : studioEnv.Registered 2 := by
  show studioEnv.tricaster.getDeviceByName (studioEnv.deviceNameOf 2) = some 2
  decide

theorem studioEvening_stable : ManagerStable rehearsalEnv studioEvening :=
  ⟨fun _ _ h => h, rehearsalEnv_consistent, trivial,
    rehearsal_preserved, studioEnv_consistent, backup_registered,
    fun _ _ h => h, studioEnv_consistent, trivial,
    fun _ _ h => h, studioEnv_consistent, trivial, trivial⟩

theorem C8_witness :
    rehearsalEnv.Consistent ∧ ManagerStable rehearsalEnv studioEvening ∧
    (run rehearsalEnv
      (RundownMacroWidget.new rehearsalEnv { label := "Intro", deviceName := "Main" }
        "Transparent" true false false) studioEvening).2.connections = [2] ∧
    (run rehearsalEnv
      (RundownMacroWidget.new rehearsalEnv { label := "Intro", deviceName := "Main" }
        "Transparent" true false false) studioEvening).2.model.deviceName = "Backup" ∧
    ∀ d ∈ (run rehearsalEnv
      (RundownMacroWidget.new rehearsalEnv { label := "Intro", deviceName := "Main" }
        "Transparent" true false false) studioEvening).2.connections,
      (run rehearsalEnv
        (RundownMacroWidget.new rehearsalEnv { label := "Intro", deviceName := "Main" }
          "Transparent" true false false) studioEvening).1.deviceNameOf d =
      (run rehearsalEnv
        (RundownMacroWidget.new rehearsalEnv { label := "Intro", deviceName := "Main" }
          "Transparent" true false false) studioEvening).2.model.deviceName :=
  ⟨rehearsalEnv_consistent, studioEvening_stable, by decide, by decide,
    fun d hd =>
      ((connections_follow_device_name rehearsalEnv { label := "Intro", deviceName := "Main" }
        "Transparent" true false false studioEvening rehearsalEnv_consistent
        studioEvening_stable).1 d hd).2⟩

/-- C8 (as stated, refuted): with a name-to-device mapping that is a function and never
changes, the invariant fails.  `deviceAdded` connects by the name the device's address
resolves to, while the DeviceChanged handler disconnects the device looked up by name.
In `sharedAddressEnv` the item starts on "Main"; announcing "Spare" (object 3, same
address as "Main") connects it; renaming the item to "Backup" disconnects object 1 only,
so object 3 stays connected although it is registered as "Spare" and its address
resolves to "Main".  The same happens in `studioEnv` for an object 3 at the address of
"Main". -/
theorem connections_outlive_rename :
    MappingStable sharedAddressEnv spareAnnounced ∧
    (run sharedAddressEnv
      (RundownMacroWidget.new sharedAddressEnv { label := "Intro", deviceName := "Main" }
        "Transparent" true false false) spareAnnounced).2.model.deviceName = "Backup" ∧
    (run sharedAddressEnv
      (RundownMacroWidget.new sharedAddressEnv { label := "Intro", deviceName := "Main" }
        "Transparent" true false false) spareAnnounced).2.connections = [3, 2] ∧
    sharedAddressEnv.tricaster.getDeviceByName "Spare" = some 3 ∧
    sharedAddressEnv.tricaster.getDeviceByName "Backup" = some 2 ∧
    sharedAddressEnv.deviceNameOf 3 = "Main" ∧
    ¬ (∀ d ∈ (run sharedAddressEnv
          (RundownMacroWidget.new sharedAddressEnv { label := "Intro", deviceName := "Main" }
            "Transparent" true false false) spareAnnounced).2.connections,
        sharedAddressEnv.tricaster.getDeviceByName "Backup" = some d ∨
        sharedAddressEnv.deviceNameOf d = "Backup") ∧
    MappingStable studioEnv strayAnnounced ∧
    (run studioEnv
      (RundownMacroWidget.new studioEnv { label := "Intro", deviceName := "Main" }
        "Transparent" true false false) strayAnnounced).2.model.deviceName = "Backup" ∧
    (run studioEnv
      (RundownMacroWidget.new studioEnv { label := "Intro", deviceName := "Main" }
        "Transparent" true false false) strayAnnounced).2.connections = [3, 2] ∧
    studioEnv.deviceNameOf 3 = "Main" ∧
    studioEnv.tricaster.getDeviceByName "Backup" = some 2 := by
  refine ⟨⟨fun _ _ h => h, fun _ _ h => h, trivial⟩, by decide, by decide, by decide,
    by decide, by decide, by decide, ⟨fun _ _ h => h, fun _ _ h => h, trivial⟩, by decide,
    by decide, by decide, by decide⟩

end CasparClient
